import Mathlib

/-
Verification of the demonstration scripts of the sui-best-practices book.

Part 1 embeds the BCS byte format used by docs/bcs/bcs_demo.js.  The script
itself only calls the external @mysten/bcs library; the byte-level format
(little-endian fixed-width integers, ULEB128 length prefixes, index-tagged
enums) is documented, with concrete expected byte arrays, in the book's own
BCS chapter, and the codecs below are translated from that documentation.
The demo's strings are all ASCII, so the UTF-8 encoding of a string is
modelled as the list of its character codes.

Part 2 embeds the object-query demo scripts (object_query.md and the table
query chapter) as functions over an oracle client; network calls and console
output are reified as explicit traces.
-/

/-- Little-endian fixed-width encoding: k bytes of n, least significant first. -/
def toLEBytes : Nat → Nat → List Nat
  | 0, _ => []
  | k + 1, n => n % 256 :: toLEBytes k (n / 256)

/-- Read a little-endian byte list back into a number. -/
def fromLEBytes : List Nat → Nat
  | [] => 0
  | b :: rest => b + 256 * fromLEBytes rest

/-- bcs.u64 serialization: 8 bytes, little endian (demo inputs are below 2^64). -/
def serializeU64 (n : Nat) : List Nat := toLEBytes 8 n

/-- bcs.u64 parsing: consume 8 bytes, return the value and the remaining bytes. -/
def readU64 (bs : List Nat) : Option (Nat × List Nat) :=
  if bs.length < 8 then none else some (fromLEBytes (bs.take 8), bs.drop 8)

/-- ULEB128 encoding worker; the fuel argument only bounds the recursion
depth and any fuel of at least one byte per output digit is enough. -/
def ulebEncodeAux : Nat → Nat → List Nat
  | 0, n => [n % 128]
  | fuel + 1, n => if n < 128 then [n] else (n % 128 + 128) :: ulebEncodeAux fuel (n / 128)

/-- ULEB128 encoding, used by BCS for lengths and enum variant indices. -/
def ulebEncode (n : Nat) : List Nat := ulebEncodeAux n n

/-- ULEB128 decoding, returning the value and the remaining bytes. -/
def readUleb : List Nat → Option (Nat × List Nat)
  | [] => none
  | b :: rest =>
    if b < 128 then some (b, rest)
    else
      match readUleb rest with
      | none => none
      | some (m, rest2) => some (b - 128 + 128 * m, rest2)

/-- bcs.string serialization: ULEB length prefix followed by the character
codes (the demo's strings are ASCII, where this agrees with UTF-8). -/
def serializeString (s : String) : List Nat :=
  ulebEncode s.length ++ s.toList.map Char.toNat

/-- bcs.string parsing. -/
def readString (bs : List Nat) : Option (String × List Nat) :=
  match readUleb bs with
  | none => none
  | some (len, rest) =>
    if rest.length < len then none
    else some (String.mk ((rest.take len).map Char.ofNat), rest.drop len)

/-- bcs.bytes(32) serialization: a fixed-size byte array is written as is,
with no length prefix (the demo always passes 32 bytes). -/
def serializeBytes32 (bs : List Nat) : List Nat := bs

/-- bcs.bytes(32) parsing: consume exactly 32 bytes. -/
def readBytes32 (bs : List Nat) : Option (List Nat × List Nat) :=
  if bs.length < 32 then none else some (bs.take 32, bs.drop 32)

/-- bcs.vector(bcs.u64()) serialization: ULEB element count followed by the
concatenated element encodings. -/
def serializeVectorU64 (v : List Nat) : List Nat :=
  ulebEncode v.length ++ (v.map serializeU64).flatten

/-- Read a fixed number of consecutive u64 values. -/
def readCountU64 : Nat → List Nat → Option (List Nat × List Nat)
  | 0, bs => some ([], bs)
  | k + 1, bs =>
    match readU64 bs with
    | none => none
    | some (n, rest) =>
      match readCountU64 k rest with
      | none => none
      | some (l, rest2) => some (n :: l, rest2)

/-- bcs.vector(bcs.u64()) parsing. -/
def readVectorU64 (bs : List Nat) : Option (List Nat × List Nat) :=
  match readUleb bs with
  | none => none
  | some (len, rest) => readCountU64 len rest

/-- The Coin struct registered by the demo: value (u64) and coinType (string). -/
structure Coin where
  value : Nat
  coinType : String
deriving DecidableEq

/-- bcs.struct Coin serialization: fields in declaration order. -/
def serializeCoin (c : Coin) : List Nat :=
  serializeU64 c.value ++ serializeString c.coinType

/-- bcs.struct Coin parsing. -/
def readCoin (bs : List Nat) : Option (Coin × List Nat) :=
  match readU64 bs with
  | none => none
  | some (v, rest) =>
    match readString rest with
    | none => none
    | some (t, rest2) => some (⟨v, t⟩, rest2)

/-- The SimpleTransaction struct registered by the demo: two 32-byte
addresses followed by two u64 fields. -/
structure SimpleTransaction where
  sender : List Nat
  recipient : List Nat
  amount : Nat
  gas : Nat
deriving DecidableEq

/-- bcs.struct SimpleTransaction serialization: fields in declaration order. -/
def serializeTransaction (t : SimpleTransaction) : List Nat :=
  serializeBytes32 t.sender ++ serializeBytes32 t.recipient ++
    serializeU64 t.amount ++ serializeU64 t.gas

/-- bcs.struct SimpleTransaction parsing. -/
def readTransaction (bs : List Nat) : Option (SimpleTransaction × List Nat) :=
  match readBytes32 bs with
  | none => none
  | some (s, r1) =>
    match readBytes32 r1 with
    | none => none
    | some (rcp, r2) =>
      match readU64 r2 with
      | none => none
      | some (a, r3) =>
        match readU64 r3 with
        | none => none
        | some (g, r4) => some (⟨s, rcp, a, g⟩, r4)

/-- The Status enum registered by the demo: Active carries no data,
Inactive carries a string, Pending carries a u64. -/
inductive Status where
  | Active : Status
  | Inactive : String → Status
  | Pending : Nat → Status
deriving DecidableEq

/-- bcs.enum Status serialization: ULEB variant index, then the payload. -/
def serializeStatus : Status → List Nat
  | .Active => ulebEncode 0
  | .Inactive s => ulebEncode 1 ++ serializeString s
  | .Pending n => ulebEncode 2 ++ serializeU64 n

/-- bcs.enum Status parsing. -/
def readStatus (bs : List Nat) : Option (Status × List Nat) :=
  match readUleb bs with
  | some (0, rest) => some (.Active, rest)
  | some (1, rest) =>
    match readString rest with
    | none => none
    | some (s, rest2) => some (.Inactive s, rest2)
  | some (2, rest) =>
    match readU64 rest with
    | none => none
    | some (n, rest2) => some (.Pending n, rest2)
  | _ => none

/-- The parse entry point of a bcs type: read one value off the byte array. -/
def bcsParse {α : Type} (reader : List Nat → Option (α × List Nat))
    (bs : List Nat) : Option α :=
  (reader bs).map Prod.fst

/-- The fixed u64 input of demo step 1 (the bigint 42n). -/
def demoNumber : Nat := 42

/-- The fixed string input of demo step 2. -/
def demoText : String := "Hello Sui!"

/-- The fixed address input of demo step 3: 32 zero bytes. -/
def demoAddressBytes : List Nat := List.replicate 32 0

/-- The fixed vector input of demo step 4. -/
def demoVector : List Nat := [1, 2, 3, 4, 5]

/-- The fixed Coin input of demo step 5. -/
def demoCoin : Coin := ⟨1000000, "0x2::sui::SUI"⟩

/-- The sender address of demo step 6: 31 zero bytes then a 1. -/
def senderBytes : List Nat := List.replicate 31 0 ++ [1]

/-- The recipient address of demo step 6: 31 zero bytes then a 2. -/
def recipientBytes : List Nat := List.replicate 31 0 ++ [2]

/-- The fixed SimpleTransaction input of demo step 6. -/
def demoTransaction : SimpleTransaction := ⟨senderBytes, recipientBytes, 1000000000, 1000000⟩

/-- Cross-check: step 1 of the demo produces the byte array documented in
the book's BCS chapter. -/
theorem serializeU64_demo_bytes : serializeU64 demoNumber = 42 :: List.replicate 7 0 := by
  decide

/-- Cross-check: step 2 of the demo produces the documented byte array. -/
theorem serializeString_demo_bytes :
    serializeString demoText = [10, 72, 101, 108, 108, 111, 32, 83, 117, 105, 33] := by
  decide

/-- Cross-check: step 4 of the demo produces the documented byte array. -/
theorem serializeVectorU64_demo_bytes :
    serializeVectorU64 demoVector =
      5 :: ((1 :: List.replicate 7 0) ++ (2 :: List.replicate 7 0) ++
        (3 :: List.replicate 7 0) ++ (4 :: List.replicate 7 0) ++ (5 :: List.replicate 7 0)) := by
  decide

/-- Cross-check: step 5 of the demo produces the documented byte array. -/
theorem serializeCoin_demo_bytes :
    serializeCoin demoCoin =
      [64, 66, 15, 0, 0, 0, 0, 0, 13, 48, 120, 50, 58, 58, 115, 117, 105, 58, 58, 83, 85, 73] := by
  decide

/-- Cross-check: step 7 of the demo produces the documented byte arrays for
the three Status variants. -/
theorem serializeStatus_demo_bytes :
    serializeStatus .Active = [0] ∧
    serializeStatus (.Inactive "Maintenance") =
      [1, 11, 77, 97, 105, 110, 116, 101, 110, 97, 110, 99, 101] ∧
    serializeStatus (.Pending 12345) = [2, 57, 48, 0, 0, 0, 0, 0, 0] := by
  decide

/-- Claim C1: for every value serialized in the BCS demo — the u64 42, the
string "Hello Sui!", the 32-byte zero address, the vector [1,2,3,4,5] of u64,
the Coin struct, the SimpleTransaction struct, and each of the three Status
enum variants — parsing the serialized byte array returns a value equal to
the original input. -/
theorem bcs_demo_roundtrip_values :
    bcsParse readU64 (serializeU64 demoNumber) = some demoNumber ∧
    bcsParse readString (serializeString demoText) = some demoText ∧
    bcsParse readBytes32 (serializeBytes32 demoAddressBytes) = some demoAddressBytes ∧
    bcsParse readVectorU64 (serializeVectorU64 demoVector) = some demoVector ∧
    bcsParse readCoin (serializeCoin demoCoin) = some demoCoin ∧
    bcsParse readTransaction (serializeTransaction demoTransaction) = some demoTransaction ∧
    bcsParse readStatus (serializeStatus .Active) = some .Active ∧
    bcsParse readStatus (serializeStatus (.Inactive "Maintenance")) =
      some (.Inactive "Maintenance") ∧
    bcsParse readStatus (serializeStatus (.Pending 12345)) = some (.Pending 12345) := by
  refine ⟨by decide, by decide, ?_, by decide, ?_, by decide, ?_, by decide, ?_⟩ <;> decide

/-
Address display: bcs_demo.js renders a deserialized 32-byte address as
the string 0x followed by, for each byte, b.toString(16).padStart(2, "0"),
joined together (lines 39 and 100-105).
-/

/-- Model of JavaScript toString(16) on an unsigned number: the base-16
digit characters, lowercase, with 0 rendered as a single 0 digit. -/
def jsHexChars (n : Nat) : List Char := Nat.toDigits 16 n

/-- Model of padStart(2, "0"): left-pad the digit list to length 2. -/
def padStart2 (cs : List Char) : List Char :=
  if cs.length < 2 then List.replicate (2 - cs.length) '0' ++ cs else cs

/-- One byte of the address display: b.toString(16).padStart(2, "0"). -/
def byteHexChars (b : Nat) : List Char := padStart2 (jsHexChars b)

/-- The address display of the demo: 0x followed by the per-byte hex pairs
joined with no separator. -/
def addressChars (bytes : List Nat) : List Char :=
  '0' :: 'x' :: (bytes.map byteHexChars).flatten

/-- The address display as a string. -/
def addressString (bytes : List Nat) : String := String.mk (addressChars bytes)

/-- The sixteen lowercase hexadecimal digit characters. -/
def hexLowerChars : List Char := "0123456789abcdef".toList

set_option maxRecDepth 4000 in
/-- Each byte value below 256 renders as exactly two lowercase hex digits. -/
theorem byteHexChars_spec : ∀ b, b < 256 →
    (byteHexChars b).length = 2 ∧ ∀ c ∈ byteHexChars b, c ∈ hexLowerChars := by
  decide

/-- The joined per-byte hex pairs of a byte list: two characters per byte,
all of them lowercase hex digits. -/
theorem hexPairs_spec (bytes : List Nat) (hb : ∀ b ∈ bytes, b < 256) :
    (bytes.map byteHexChars).flatten.length = 2 * bytes.length ∧
    ∀ c ∈ (bytes.map byteHexChars).flatten, c ∈ hexLowerChars := by
  induction bytes with
  | nil => simp
  | cons b l ih =>
    have hbl : ∀ x ∈ l, x < 256 := fun x hx => hb x (List.mem_cons_of_mem _ hx)
    have hbb := byteHexChars_spec b (hb b (List.mem_cons_self _ _))
    have ihl := ih hbl
    constructor
    · simp only [List.map_cons, List.flatten_cons, List.length_append, hbb.1, ihl.1,
        List.length_cons]
      ring
    · intro c hc
      simp only [List.map_cons, List.flatten_cons, List.mem_append] at hc
      rcases hc with hc | hc
      · exact hbb.2 c hc
      · exact ihl.2 c hc

/-- Claim C10: for every 32-byte address rendered by the BCS demo, the
printed address string is 0x followed by 64 lowercase hexadecimal
characters, two per byte. -/
theorem address_hex_rendering (bytes : List Nat) (hlen : bytes.length = 32)
    (hb : ∀ b ∈ bytes, b < 256) :
    (addressChars bytes).length = 66 ∧
    (addressChars bytes).take 2 = ['0', 'x'] ∧
    (∀ b ∈ bytes, (byteHexChars b).length = 2) ∧
    ∀ c ∈ (addressChars bytes).drop 2, c ∈ hexLowerChars := by
  obtain ⟨hlen2, hhex⟩ := hexPairs_spec bytes hb
  refine ⟨?_, rfl, fun b hbm => (byteHexChars_spec b (hb b hbm)).1, ?_⟩
  · simp [addressChars, hlen2, hlen]
  · intro c hc
    exact hhex c (by simpa [addressChars] using hc)

/-- Witness for the address rendering claim at the demo's zero address. -/
theorem address_hex_rendering_witness :
    (addressChars (List.replicate 32 0)).length = 66 ∧
    (addressChars (List.replicate 32 0)).take 2 = ['0', 'x'] := by
  have h := address_hex_rendering (List.replicate 32 0) (by decide) (by decide)
  exact ⟨h.1, h.2.1⟩

/-- Cross-check: the zero address of demo step 3 renders as the documented
string of 0x followed by 64 zeros. -/
theorem addressString_demo_zero :
    addressString demoAddressBytes =
      "0x0000000000000000000000000000000000000000000000000000000000000000" := by
  decide

/-
The observable behaviour of demonstrateBCS (bcs_demo.js lines 4-140) is a
sequence of console outputs.  Fixed banner lines are omitted; the events
below record every printed byte array and every printed deserialized value,
in program order.  A library parse failure would throw, which the embedding
records as an error aborting the remaining events.
-/

/-- One observable output of the BCS demo. -/
inductive BcsEvent where
  | bytesShown : List Nat → BcsEvent
  | u64Shown : Nat → BcsEvent
  | stringShown : String → BcsEvent
  | byteArrayShown : List Nat → BcsEvent
  | addressShown : String → BcsEvent
  | vecShown : List Nat → BcsEvent
  | coinShown : Coin → BcsEvent
  | txShown : SimpleTransaction → BcsEvent
  | statusShown : Status → BcsEvent
  | failed : String → BcsEvent
deriving DecidableEq

/-- The error message modelling a throw from the library's parse. -/
def bcsThrowMsg : String := "bcs parse error"

/-- Demo step 1 (lines 10-18): serialize the u64 42, print the bytes,
parse them back, print the result. -/
def step1 : List BcsEvent × Option String :=
  let serializedNumber := serializeU64 demoNumber
  match bcsParse readU64 serializedNumber with
  | some deserializedNumber =>
    ([.bytesShown serializedNumber, .u64Shown deserializedNumber], none)
  | none => ([.bytesShown serializedNumber], some bcsThrowMsg)

/-- Demo step 2 (lines 21-28): serialize the string, print the bytes,
parse them back, print the result. -/
def step2 : List BcsEvent × Option String :=
  let serializedString := serializeString demoText
  match bcsParse readString serializedString with
  | some deserializedString =>
    ([.bytesShown serializedString, .stringShown deserializedString], none)
  | none => ([.bytesShown serializedString], some bcsThrowMsg)

/-- Demo step 3 (lines 31-39): serialize the 32-byte zero address, print
the bytes, parse them back, print the byte array and its hex rendering. -/
def step3 : List BcsEvent × Option String :=
  let serializedAddress := serializeBytes32 demoAddressBytes
  match bcsParse readBytes32 serializedAddress with
  | some deserializedAddress =>
    ([.bytesShown serializedAddress, .byteArrayShown deserializedAddress,
      .addressShown (addressString deserializedAddress)], none)
  | none => ([.bytesShown serializedAddress], some bcsThrowMsg)

/-- Demo step 4 (lines 42-49): serialize the vector of u64, print the
bytes, parse them back, print the result. -/
def step4 : List BcsEvent × Option String :=
  let serializedVector := serializeVectorU64 demoVector
  match bcsParse readVectorU64 serializedVector with
  | some deserializedVector =>
    ([.bytesShown serializedVector, .vecShown deserializedVector], none)
  | none => ([.bytesShown serializedVector], some bcsThrowMsg)

/-- Demo step 5 (lines 52-71): serialize the Coin struct, print the bytes,
parse them back, print the struct and its value and coinType fields. -/
def step5 : List BcsEvent × Option String :=
  let serializedCoin := serializeCoin demoCoin
  match bcsParse readCoin serializedCoin with
  | some deserializedCoin =>
    ([.bytesShown serializedCoin, .coinShown deserializedCoin,
      .u64Shown deserializedCoin.value, .stringShown deserializedCoin.coinType], none)
  | none => ([.bytesShown serializedCoin], some bcsThrowMsg)

/-- Demo step 6 (lines 74-105): serialize the SimpleTransaction, print the
bytes, parse them back, print its sender and recipient addresses in hex
together with the parsed struct. -/
def step6 : List BcsEvent × Option String :=
  let serializedTx := serializeTransaction demoTransaction
  match bcsParse readTransaction serializedTx with
  | some deserializedTx =>
    ([.bytesShown serializedTx, .addressShown (addressString deserializedTx.sender),
      .addressShown (addressString deserializedTx.recipient), .txShown deserializedTx], none)
  | none => ([.bytesShown serializedTx], some bcsThrowMsg)

/-- Demo step 7 (lines 108-137): serialize the three Status variants and
print each byte array, then parse each back and print the results. -/
def step7 : List BcsEvent × Option String :=
  let serializedActive := serializeStatus .Active
  let serializedInactive := serializeStatus (.Inactive "Maintenance")
  let serializedPending := serializeStatus (.Pending 12345)
  let shown : List BcsEvent := [.bytesShown serializedActive, .bytesShown serializedInactive,
    .bytesShown serializedPending]
  match bcsParse readStatus serializedActive with
  | none => (shown, some bcsThrowMsg)
  | some a =>
    match bcsParse readStatus serializedInactive with
    | none => (shown ++ [.statusShown a], some bcsThrowMsg)
    | some i =>
      match bcsParse readStatus serializedPending with
      | none => (shown ++ [.statusShown a, .statusShown i], some bcsThrowMsg)
      | some p => (shown ++ [.statusShown a, .statusShown i, .statusShown p], none)

/-- Sequencing of two blocks of the demo body: a throw in the first block
skips the second. -/
def seqStep (a b : List BcsEvent × Option String) : List BcsEvent × Option String :=
  match a with
  | (evs, some e) => (evs, some e)
  | (evs, none) => (evs ++ b.1, b.2)

/-- The body of demonstrateBCS: the seven demonstration steps in order. -/
def demonstrateBCS : List BcsEvent × Option String :=
  seqStep step1 (seqStep step2 (seqStep step3 (seqStep step4
    (seqStep step5 (seqStep step6 step7)))))

/-- The top-level try/catch of bcs_demo.js (lines 143-147): run the body
and, if it threw, log the error. -/
def tryCatchConsole (body : List BcsEvent × Option String) : List BcsEvent :=
  body.1 ++ (match body.2 with | none => [] | some e => [BcsEvent.failed e])

/-- The whole bcs_demo.js script run. -/
def bcsScriptMain : List BcsEvent := tryCatchConsole demonstrateBCS

/-- Decode each produced byte array in turn and print the decoded value; a
decode failure throws, aborting the remaining prints. -/
def decodeShown {α : Type} (dec : List Nat → Option α) (showValue : α → List BcsEvent) :
    List (List Nat) → List BcsEvent × Option String
  | [] => ([], none)
  | bs :: rest =>
    match dec bs with
    | none => ([], some bcsThrowMsg)
    | some v =>
      let d := decodeShown dec showValue rest
      (showValue v ++ d.1, d.2)

/-- Spec-side shape of one demonstration step, following the specification
text: construct fixed values, call the library encode function for the
corresponding type on each, print the produced bytes, call the
corresponding library decode function on those same bytes, and print the
results; nothing else is computed. -/
def encodeDecodeStep {α : Type} (enc : α → List Nat) (dec : List Nat → Option α)
    (showValue : α → List BcsEvent) (vs : List α) : List BcsEvent × Option String :=
  let blobs := vs.map enc
  let d := decodeShown dec showValue blobs
  (blobs.map BcsEvent.bytesShown ++ d.1, d.2)

/-- Claim C5: each of the seven demonstration steps of the BCS demo only
constructs a fixed value, encodes it with the library, decodes the produced
bytes with the library, and prints both; the body completes without any
failure and the script implements no encoding or decoding of its own. -/
theorem bcs_demo_encode_decode_only :
    step1 = encodeDecodeStep serializeU64 (bcsParse readU64)
      (fun n => [.u64Shown n]) [demoNumber] ∧
    step2 = encodeDecodeStep serializeString (bcsParse readString)
      (fun s => [.stringShown s]) [demoText] ∧
    step3 = encodeDecodeStep serializeBytes32 (bcsParse readBytes32)
      (fun a => [.byteArrayShown a, .addressShown (addressString a)]) [demoAddressBytes] ∧
    step4 = encodeDecodeStep serializeVectorU64 (bcsParse readVectorU64)
      (fun v => [.vecShown v]) [demoVector] ∧
    step5 = encodeDecodeStep serializeCoin (bcsParse readCoin)
      (fun c => [.coinShown c, .u64Shown c.value, .stringShown c.coinType]) [demoCoin] ∧
    step6 = encodeDecodeStep serializeTransaction (bcsParse readTransaction)
      (fun t => [.addressShown (addressString t.sender),
        .addressShown (addressString t.recipient), .txShown t]) [demoTransaction] ∧
    step7 = encodeDecodeStep serializeStatus (bcsParse readStatus)
      (fun st => [.statusShown st])
      [Status.Active, Status.Inactive "Maintenance", Status.Pending 12345] ∧
    demonstrateBCS.2 = none := by
  refine ⟨by decide, by decide, ?_, by decide, ?_, by decide, ?_, by decide⟩ <;> decide

/-
Encoder kinds: the kinds of typed encoder the @mysten/bcs library offers,
and the ones bcs_demo.js actually constructs.
-/

/-- The kinds of typed encoder offered by the serialization library. -/
inductive EncoderKind where
  | integer : EncoderKind
  | string : EncoderKind
  | bytes : EncoderKind
  | vector : EncoderKind
  | struct : EncoderKind
  | enum : EncoderKind
  | boolean : EncoderKind
  | option : EncoderKind
  | tuple : EncoderKind
  | map : EncoderKind
deriving DecidableEq

/-- The encoder constructors exercised by bcs_demo.js, one entry per bcs
constructor call in program order: bcs.u64() at line 12, bcs.string() at
line 23, bcs.bytes(32) at line 33, bcs.vector(bcs.u64()) at line 44,
bcs.struct Coin at line 55, bcs.struct SimpleTransaction at line 77 and
bcs.enum Status at line 110. -/
def demoEncoderKinds : List EncoderKind :=
  [.integer, .string, .bytes, .vector, .struct, .struct, .enum]

/-- The five encoder kinds the specification lists for the demo. -/
def specListedKinds : List EncoderKind := [.integer, .string, .bytes, .struct, .enum]

/-- The specification's list amended with the vector kind. -/
def specListedKindsWithVector : List EncoderKind :=
  [.integer, .string, .bytes, .vector, .struct, .enum]

/-- Counterexample to claim C7: the demo also exercises the library's
vector encoder, bcs.vector(bcs.u64()) at line 44, which is not among the
five kinds the specification lists. -/
theorem vector_encoder_exercised_cex :
    EncoderKind.vector ∈ demoEncoderKinds ∧ EncoderKind.vector ∉ specListedKinds := by
  decide

/-- Claim C7 (amended): every encoder kind exercised by the BCS demo is an
integer, string, byte-array, vector, struct or enum encoder; no other
encoder kind is exercised. -/
theorem demo_encoder_kinds_amended :
    ∀ k ∈ demoEncoderKinds, k ∈ specListedKindsWithVector := by
  decide

/-- Witness for the amended encoder-kind claim at the vector kind. -/
theorem demo_encoder_kinds_amended_witness :
    EncoderKind.vector ∈ specListedKindsWithVector :=
  demo_encoder_kinds_amended EncoderKind.vector (by decide)

/-
Part 2: the object-query demo scripts.  The Sui SDK client is an oracle:
each of its methods either resolves with a response or throws with a
message.  Response shapes follow the SDK types: a getObject response has
optional error and data fields, the data carries the object id, type,
owner and an optional parsed content whose Move fields form a JSON-like
tree.  Every function below returns its result together with the list of
network calls it issued and the console lines it printed, in program order.
-/

/-- The options object passed to client.getObject. -/
structure GetObjectOptions where
  showType : Bool
  showOwner : Bool
  showPreviousTransaction : Bool
  showDisplay : Bool
  showContent : Bool
  showBcs : Bool
  showStorageRebate : Bool
deriving DecidableEq

/-- A network call issued through the SDK client. -/
inductive RpcCall where
  | getObject : String → GetObjectOptions → RpcCall
  | getDynamicFields : String → RpcCall
deriving DecidableEq

/-- A parsed Move value: a string, a number, or an object with named fields. -/
inductive MoveValue where
  | str : String → MoveValue
  | num : Nat → MoveValue
  | obj : List (String × MoveValue) → MoveValue

/-- Field lookup in a Move object node. -/
def lookupField : List (String × MoveValue) → String → Option MoveValue
  | [], _ => none
  | (k, v) :: rest, key => if k == key then some v else lookupField rest key

/-- JavaScript property access on a Move value: defined fields of an object
node are found, anything else is undefined. -/
def MoveValue.getField : MoveValue → String → Option MoveValue
  | .obj fields, key => lookupField fields key
  | _, _ => none

/-- The data part of a getObject response. -/
structure ObjectData where
  objectId : String
  type : String
  owner : String
  content : Option MoveValue

/-- A getObject response: at most one of error and data is meaningful. -/
structure ObjectResult where
  error : Option String
  data : Option ObjectData

/-- One entry of a getDynamicFields response. -/
structure DynField where
  name : MoveValue
  type : String
  objectId : String

/-- A getDynamicFields response. -/
structure DynFieldsPage where
  data : List DynField

/-- The SDK client as an oracle: each method resolves or throws. -/
structure SuiClient where
  getObject : String → GetObjectOptions → Except String ObjectResult
  getDynamicFields : String → Except String DynFieldsPage

/-- A console line: info for console.log, err for a console.error carrying
a caught error's message. -/
inductive LogEntry where
  | info : String → LogEntry
  | err : String → String → LogEntry
deriving DecidableEq

/-- The observable outcome of running one of the demo functions: the value
returned or error thrown, the network calls issued and the lines printed,
in program order. -/
structure Outcome (α : Type) where
  result : Except String α
  calls : List RpcCall
  logs : List LogEntry

/-- A separator line of n equal signs. -/
def sepLine (n : Nat) : String := String.mk (List.replicate n '=')

/-- The message of a JavaScript TypeError raised by reading a property of
undefined. -/
def typeErrorMsg (field : String) : String :=
  "TypeError: Cannot read properties of undefined (reading " ++ field ++ ")"

/-- The options object built by queryObject (object_query.md lines 32-41):
every show flag is on. -/
def queryObjectOptions : GetObjectOptions :=
  { showType := true, showOwner := true, showPreviousTransaction := true,
    showDisplay := true, showContent := true, showBcs := true, showStorageRebate := true }

/-- The first example object id of demonstrateObjectQueries. -/
def exampleId1 : String := "0x6b0c51f4925126d690619091b317fda87d1cd5223e82ecb0bcb6ded3baa3d91d"

/-- The second example object id of demonstrateObjectQueries. -/
def exampleId2 : String := "0x0000000000000000000000000000000000000000000000000000000000000006"

/-- The example list of demonstrateObjectQueries: object id and description. -/
def exampleObjects : List (String × String) :=
  [(exampleId1, "智能合约包"), (exampleId2, "系统对象（时钟）")]

/-- queryObject (object_query.md lines 25-51): log the id and a separator,
await client.getObject with all display options, return the response; on a
throw, log the message and return null. -/
def queryObject (client : SuiClient) (objectId : String) : Outcome (Option ObjectResult) :=
  let logs0 := [LogEntry.info ("🔍 查询对象: " ++ objectId), LogEntry.info (sepLine 60)]
  match client.getObject objectId queryObjectOptions with
  | .ok objectInfo =>
    { result := .ok (some objectInfo),
      calls := [RpcCall.getObject objectId queryObjectOptions], logs := logs0 }
  | .error e =>
    { result := .ok none,
      calls := [RpcCall.getObject objectId queryObjectOptions],
      logs := logs0 ++ [LogEntry.err "❌ 查询对象失败:" e] }

/-- The loop of demonstrateObjectQueries: for each example print its
description, run queryObject on its id, and print a separator. -/
def demoLoop (client : SuiClient) : List (String × String) → Outcome Unit
  | [] => { result := .ok (), calls := [], logs := [] }
  | (objectId, desc) :: rest =>
    let q := queryObject client objectId
    match q.result with
    | .error e =>
      { result := .error e, calls := q.calls,
        logs := LogEntry.info ("📌 查询示例: " ++ desc) :: q.logs }
    | .ok _ =>
      let t := demoLoop client rest
      { result := t.result, calls := q.calls ++ t.calls,
        logs := (LogEntry.info ("📌 查询示例: " ++ desc) :: q.logs ++
          [LogEntry.info (sepLine 80)]) ++ t.logs }

/-- demonstrateObjectQueries (object_query.md lines 63-84): print the
banner and query each example object in turn. -/
def demonstrateObjectQueries (client : SuiClient) : Outcome Unit :=
  let t := demoLoop client exampleObjects
  { result := t.result, calls := t.calls,
    logs := [LogEntry.info "🚀 Sui 对象查询演示", LogEntry.info (sepLine 80)] ++ t.logs }

/-- Claim C8: queryObject never throws — it returns the object info on
success and catches any client error, logging its message and returning
null — and therefore demonstrateObjectQueries issues the query for every
example object no matter which queries fail. -/
theorem queryObject_never_throws (client : SuiClient) (objectId : String) :
    (∃ v, (queryObject client objectId).result = .ok v) ∧
    (∀ e, client.getObject objectId queryObjectOptions = .error e →
      (queryObject client objectId).result = .ok none ∧
      LogEntry.err "❌ 查询对象失败:" e ∈ (queryObject client objectId).logs) ∧
    (∀ r, client.getObject objectId queryObjectOptions = .ok r →
      (queryObject client objectId).result = .ok (some r)) ∧
    (demonstrateObjectQueries client).calls =
      [RpcCall.getObject exampleId1 queryObjectOptions,
       RpcCall.getObject exampleId2 queryObjectOptions] := by
  refine ⟨?_, ?_, ?_, ?_⟩
  · cases h : client.getObject objectId queryObjectOptions <;>
      simp [queryObject, h]
  · intro e he
    simp [queryObject, he]
  · intro r hr
    simp [queryObject, hr]
  · have h1 : ∀ oid, ∃ v, (queryObject client oid).result = Except.ok v := by
      intro oid
      cases h : client.getObject oid queryObjectOptions <;> simp [queryObject, h]
    have hc : ∀ oid, (queryObject client oid).calls =
        [RpcCall.getObject oid queryObjectOptions] := by
      intro oid
      cases h : client.getObject oid queryObjectOptions <;> simp [queryObject, h]
    simp only [demonstrateObjectQueries, demoLoop, exampleObjects]
    obtain ⟨v1, hv1⟩ := h1 exampleId1
    obtain ⟨v2, hv2⟩ := h1 exampleId2
    simp [hv1, hv2, hc]

/-- A client whose getObject always throws, exercising the catch branch. -/
def alwaysFailClient : SuiClient :=
  { getObject := fun _ _ => .error "network down",
    getDynamicFields := fun _ => .error "network down" }

/-- Witness for the queryObject claim at a client whose calls all throw. -/
theorem queryObject_never_throws_witness :
    (queryObject alwaysFailClient exampleId1).result = .ok none ∧
    (demonstrateObjectQueries alwaysFailClient).calls =
      [RpcCall.getObject exampleId1 queryObjectOptions,
       RpcCall.getObject exampleId2 queryObjectOptions] := by
  have h := queryObject_never_throws alwaysFailClient exampleId1
  exact ⟨(h.2.1 "network down" rfl).1, h.2.2.2⟩

/-- The DeTaskStore object id from the table-query chapter's CONFIG. -/
def deTaskStoreId : String := "0xcfb552a63e002d7c9a1b291d360bb1159a1caf1ff04b5967724a310ef02a34ce"

/-- The Table object id passed as parentId to getDynamicFields. -/
def tableParentId : String := "0x08104eeb9bccceac7a9300cc5d2631698d0f60cd8cf491702acd3da76b27e315"

/-- The options object built by queryDeTaskStore: content, type, owner and
previous transaction. -/
def deTaskStoreOptions : GetObjectOptions :=
  { showType := true, showOwner := true, showPreviousTransaction := true,
    showDisplay := false, showContent := true, showBcs := false, showStorageRebate := false }

/-- The options object built for the per-entry TaskID lookup: content and
type only. -/
def taskDetailsOptions : GetObjectOptions :=
  { showType := true, showOwner := false, showPreviousTransaction := false,
    showDisplay := false, showContent := true, showBcs := false, showStorageRebate := false }

/-- The try block of queryDeTaskStore (table chapter lines 297-328): fetch
the store object, throw if the response carries an error field, print its
id, type and owner, and if parsed content is present print its UID and the
tbtask table's id and size, dereferencing content.fields.id and
content.fields.tbtask.fields; reading a property of an undefined
intermediate value raises a TypeError. -/
def queryDeTaskStoreBody (client : SuiClient) : Outcome ObjectData :=
  let call := RpcCall.getObject deTaskStoreId deTaskStoreOptions
  let logs0 := [LogEntry.info "🔍 查询 DeTaskStore 对象..."]
  match client.getObject deTaskStoreId deTaskStoreOptions with
  | .error e => { result := .error e, calls := [call], logs := logs0 }
  | .ok objectResult =>
    match objectResult.error with
    | some errField =>
      { result := .error ("查询失败: " ++ errField), calls := [call], logs := logs0 }
    | none =>
      match objectResult.data with
      | none =>
        { result := .error (typeErrorMsg "objectId"), calls := [call],
          logs := logs0 ++ [LogEntry.info "✅ DeTaskStore 对象信息:"] }
      | some objectData =>
        let logs1 := logs0 ++ [LogEntry.info "✅ DeTaskStore 对象信息:",
          LogEntry.info ("   对象ID: " ++ objectData.objectId),
          LogEntry.info ("   类型: " ++ objectData.type),
          LogEntry.info ("   所有者: " ++ objectData.owner)]
        match objectData.content with
        | none => { result := .ok objectData, calls := [call], logs := logs1 }
        | some content =>
          let logs2 := logs1 ++ [LogEntry.info "   内容详情:"]
          match content.getField "fields" with
          | none => { result := .error (typeErrorMsg "id"), calls := [call], logs := logs2 }
          | some fs =>
            let logs3 := logs2 ++ [LogEntry.info "   - UID:"]
            match fs.getField "tbtask" with
            | none => { result := .error (typeErrorMsg "fields"), calls := [call], logs := logs3 }
            | some tb =>
              match tb.getField "fields" with
              | none => { result := .error (typeErrorMsg "id"), calls := [call], logs := logs3 }
              | some _tbf =>
                { result := .ok objectData, calls := [call],
                  logs := logs3 ++ [LogEntry.info "   - Table ID:",
                    LogEntry.info "   - Table 大小:"] }

/-- queryDeTaskStore with its catch (lines 329-332): log the failure
message and rethrow. -/
def queryDeTaskStore (client : SuiClient) : Outcome ObjectData :=
  let body := queryDeTaskStoreBody client
  match body.result with
  | .ok _ => body
  | .error e =>
    { result := .error e, calls := body.calls,
      logs := body.logs ++ [LogEntry.err "❌ 查询 DeTaskStore 失败:" e] }

/-- The per-entry loop of queryTableEntries (lines 375-400): print the
field's name, type and object id; when the object id is truthy, fetch the
TaskID object and, when it has data with content, print the task's UID,
name and cost, dereferencing content.fields.id.id and
content.fields.value.fields; a thrown error aborts the loop. -/
def tableLoop (client : SuiClient) : Nat → List DynField → Outcome Unit
  | _, [] => { result := .ok (), calls := [], logs := [] }
  | i, field :: rest =>
    let logsA := [LogEntry.info ("   条目 " ++ toString (i + 1) ++ ":"),
      LogEntry.info "   - 字段名:",
      LogEntry.info ("   - 字段类型: " ++ field.type),
      LogEntry.info ("   - 对象ID: " ++ field.objectId)]
    if field.objectId == "" then
      let t := tableLoop client (i + 1) rest
      { result := t.result, calls := t.calls, logs := logsA ++ t.logs }
    else
      let call := RpcCall.getObject field.objectId taskDetailsOptions
      match client.getObject field.objectId taskDetailsOptions with
      | .error e => { result := .error e, calls := [call], logs := logsA }
      | .ok taskDetails =>
        match taskDetails.data with
        | none =>
          let t := tableLoop client (i + 1) rest
          { result := t.result, calls := call :: t.calls, logs := logsA ++ t.logs }
        | some d =>
          match d.content with
          | none =>
            let t := tableLoop client (i + 1) rest
            { result := t.result, calls := call :: t.calls, logs := logsA ++ t.logs }
          | some content =>
            let logsB := logsA ++ [LogEntry.info "   - TaskID 详情:"]
            match content.getField "fields" with
            | none => { result := .error (typeErrorMsg "id"), calls := [call], logs := logsB }
            | some fs =>
              match fs.getField "id" with
              | none => { result := .error (typeErrorMsg "id"), calls := [call], logs := logsB }
              | some _u =>
                let logsC := logsB ++ [LogEntry.info "     * UID:"]
                match fs.getField "value" with
                | none =>
                  { result := .error (typeErrorMsg "fields"), calls := [call], logs := logsC }
                | some v =>
                  match v.getField "fields" with
                  | none =>
                    { result := .error (typeErrorMsg "name"), calls := [call], logs := logsC }
                  | some _vf =>
                    let t := tableLoop client (i + 1) rest
                    { result := t.result, calls := call :: t.calls,
                      logs := (logsC ++ [LogEntry.info "     * 名称:",
                        LogEntry.info "     * 成本:",
                        LogEntry.info "     * 成本(SUI):"]) ++ t.logs }

/-- The try block of queryTableEntries (lines 364-402): fetch the dynamic
fields of the table and loop over the entries. -/
def queryTableEntriesBody (client : SuiClient) : Outcome (List DynField) :=
  let logs0 := [LogEntry.info "📋 查询 Table 中的条目..."]
  match client.getDynamicFields tableParentId with
  | .error e =>
    { result := .error e, calls := [RpcCall.getDynamicFields tableParentId], logs := logs0 }
  | .ok dynamicFields =>
    let logs1 := logs0 ++
      [LogEntry.info ("✅ 找到 " ++ toString dynamicFields.data.length ++ " 个动态字段:")]
    let t := tableLoop client 0 dynamicFields.data
    { result := t.result.map (fun _ => dynamicFields.data),
      calls := RpcCall.getDynamicFields tableParentId :: t.calls,
      logs := logs1 ++ t.logs }

/-- queryTableEntries with its catch (lines 404-407): log the failure
message and rethrow. -/
def queryTableEntries (client : SuiClient) : Outcome (List DynField) :=
  let body := queryTableEntriesBody client
  match body.result with
  | .ok _ => body
  | .error e =>
    { result := .error e, calls := body.calls,
      logs := body.logs ++ [LogEntry.err "❌ 查询 Table 条目失败:" e] }

/-- Modelled from the spec: the table-query demo script's main routine is
not under src; the chapter's documented run output shows it runs
queryDeTaskStore first and then queryTableEntries, so the run is modelled
as the two functions in sequence, stopping if the first rethrows. -/
def tableDemoMain (client : SuiClient) : Outcome Unit :=
  let a := queryDeTaskStore client
  match a.result with
  | .error e => { result := .error e, calls := a.calls, logs := a.logs }
  | .ok _ =>
    let b := queryTableEntries client
    { result := b.result.map (fun _ => ()), calls := a.calls ++ b.calls,
      logs := a.logs ++ b.logs }

/-- Whether processing a successfully fetched TaskID response raises a
TypeError in queryTableEntries's dereference chain (content.fields.id.id
and content.fields.value.fields). -/
def taskDerefThrows (r : ObjectResult) : Bool :=
  match r.data with
  | none => false
  | some d =>
    match d.content with
    | none => false
    | some content =>
      match content.getField "fields" with
      | none => true
      | some fs =>
        match fs.getField "id" with
        | none => true
        | some _ =>
          match fs.getField "value" with
          | none => true
          | some v => (v.getField "fields").isNone

/-- Whether a successfully fetched DeTaskStore response makes
queryDeTaskStore raise a TypeError: no data object at all, or content
present but lacking the fields, tbtask or tbtask.fields members the
function dereferences. -/
def storeDerefThrows (r : ObjectResult) : Bool :=
  match r.data with
  | none => true
  | some d =>
    match d.content with
    | none => false
    | some content =>
      match content.getField "fields" with
      | none => true
      | some fs =>
        match fs.getField "tbtask" with
        | none => true
        | some tb => (tb.getField "fields").isNone

/-- A dynamic field whose handling in the loop completes without a throw:
either its object id is falsy, or its TaskID fetch resolves to a response
whose dereference chain does not raise. -/
def benignTask (client : SuiClient) (f : DynField) : Prop :=
  f.objectId = "" ∨
    ∃ r, client.getObject f.objectId taskDetailsOptions = Except.ok r ∧
      taskDerefThrows r = false

/-- The dynamic fields with a truthy object id, i.e. the ones the loop
fetches. -/
def fieldsWithObjectId (l : List DynField) : List DynField :=
  l.filter fun f => !(f.objectId == "")

/-- queryObject issues exactly one getObject call, whatever the client does. -/
theorem queryObject_calls (client : SuiClient) (objectId : String) :
    (queryObject client objectId).calls = [RpcCall.getObject objectId queryObjectOptions] := by
  cases h : client.getObject objectId queryObjectOptions <;> simp [queryObject, h]

/-- queryObject always resolves, whatever the client does. -/
theorem queryObject_result_ok (client : SuiClient) (objectId : String) :
    ∃ v, (queryObject client objectId).result = Except.ok v := by
  cases h : client.getObject objectId queryObjectOptions <;> simp [queryObject, h]

/-- demonstrateObjectQueries always issues the two example queries in
program order. -/
theorem demoQueries_calls (client : SuiClient) :
    (demonstrateObjectQueries client).calls =
      [RpcCall.getObject exampleId1 queryObjectOptions,
       RpcCall.getObject exampleId2 queryObjectOptions] := by
  simp only [demonstrateObjectQueries, demoLoop, exampleObjects]
  obtain ⟨v1, hv1⟩ := queryObject_result_ok client exampleId1
  obtain ⟨v2, hv2⟩ := queryObject_result_ok client exampleId2
  simp [hv1, hv2, queryObject_calls]

/-- The body of queryDeTaskStore issues exactly one getObject call. -/
theorem queryDeTaskStoreBody_calls (client : SuiClient) :
    (queryDeTaskStoreBody client).calls =
      [RpcCall.getObject deTaskStoreId deTaskStoreOptions] := by
  unfold queryDeTaskStoreBody
  repeat' split
  all_goals rfl

/-- queryDeTaskStore issues exactly one getObject call. -/
theorem queryDeTaskStore_calls (client : SuiClient) :
    (queryDeTaskStore client).calls =
      [RpcCall.getObject deTaskStoreId deTaskStoreOptions] := by
  have hb := queryDeTaskStoreBody_calls client
  unfold queryDeTaskStore
  cases h : (queryDeTaskStoreBody client).result <;> simp [h, hb]

/-- Under benign fields, the loop completes and issues one getObject per
field with a truthy object id, in list order. -/
theorem tableLoop_benign (client : SuiClient) (l : List DynField)
    (h : ∀ f ∈ l, benignTask client f) : ∀ i,
    (tableLoop client i l).result = Except.ok () ∧
    (tableLoop client i l).calls =
      (fieldsWithObjectId l).map
        (fun f => RpcCall.getObject f.objectId taskDetailsOptions) := by
  induction l with
  | nil => intro i; exact ⟨rfl, rfl⟩
  | cons f rest ih =>
    intro i
    have hrest := ih (fun g hg => h g (List.mem_cons_of_mem _ hg)) (i + 1)
    have hf := h f (List.mem_cons_self _ _)
    by_cases hid : f.objectId = ""
    · have hid2 : (f.objectId == "") = true := by simp [hid]
      simp only [tableLoop, hid2, if_true, fieldsWithObjectId, List.filter_cons, hid2,
        Bool.not_true]
      simp only [fieldsWithObjectId] at hrest
      exact ⟨hrest.1, hrest.2⟩
    · have hid2 : (f.objectId == "") = false := by simp [hid]
      rcases hf with hf | ⟨r, hr, hthrow⟩
      · exact absurd hf hid
      · obtain ⟨rerr, rdata⟩ := r
        simp only [tableLoop, hid2, Bool.false_eq_true, if_false, hr]
        have hfilter : fieldsWithObjectId (f :: rest) = f :: fieldsWithObjectId rest := by
          simp [fieldsWithObjectId, List.filter_cons, hid2]
        rw [hfilter]
        cases rdata with
        | none => exact ⟨hrest.1, by simp [hrest.2]⟩
        | some d =>
          cases hcont : d.content with
          | none => simp only [hcont]; exact ⟨hrest.1, by simp [hrest.2]⟩
          | some content =>
            simp only [taskDerefThrows, hcont] at hthrow
            cases hfs : content.getField "fields" with
            | none => simp [hfs] at hthrow
            | some fs =>
              simp only [hfs] at hthrow
              cases hfid : fs.getField "id" with
              | none => simp [hfid] at hthrow
              | some u =>
                simp only [hfid] at hthrow
                cases hfv : fs.getField "value" with
                | none => simp [hfv] at hthrow
                | some v =>
                  simp only [hfv] at hthrow
                  cases hvf : v.getField "fields" with
                  | none => simp [hvf] at hthrow
                  | some vf =>
                    simp only [hcont, hfs, hfid, hfv, hvf]
                    exact ⟨hrest.1, by simp [hrest.2]⟩

/-- Under a successful getDynamicFields response with benign fields,
queryTableEntries returns the field list and issues the getDynamicFields
call followed by one getObject per field with a truthy object id. -/
theorem queryTableEntries_benign (client : SuiClient) (page : DynFieldsPage)
    (hp : client.getDynamicFields tableParentId = Except.ok page)
    (hb : ∀ f ∈ page.data, benignTask client f) :
    (queryTableEntries client).result = Except.ok page.data ∧
    (queryTableEntries client).calls =
      RpcCall.getDynamicFields tableParentId ::
        (fieldsWithObjectId page.data).map
          (fun f => RpcCall.getObject f.objectId taskDetailsOptions) := by
  have hl := tableLoop_benign client page.data hb 0
  have hbody : (queryTableEntriesBody client).result = Except.ok page.data ∧
      (queryTableEntriesBody client).calls =
        RpcCall.getDynamicFields tableParentId ::
          (fieldsWithObjectId page.data).map
            (fun f => RpcCall.getObject f.objectId taskDetailsOptions) := by
    unfold queryTableEntriesBody
    simp [hp, hl.1, hl.2, Except.map]
  unfold queryTableEntries
  simp [hbody.1, hbody.2]

/-- The single dynamic field of the documented table run. -/
def taskFieldExample : DynField :=
  { name := MoveValue.str "1", type := "DynamicField",
    objectId := "0x28a47e6204df5401c79eec12d18557bdc38fac934aada45634b4d05077ef05f8" }

/-- A plain object payload with no parsed content. -/
def plainData : ObjectData :=
  { objectId := "0xobj", type := "0x2::package::UpgradeCap", owner := "AddressOwner",
    content := none }

/-- A successful getObject response carrying data with no content. -/
def okNoContentResult : ObjectResult := { error := none, data := some plainData }

/-- A client whose table has exactly one entry and whose object fetches
all succeed with content-free data. -/
def oneFieldClient : SuiClient :=
  { getObject := fun _ _ => .ok okNoContentResult,
    getDynamicFields := fun _ => .ok { data := [taskFieldExample] } }

/-- Counterexample to claim C2: queryTableEntries is not a single-RPC
function — on a table with one entry it issues two network calls, a
getDynamicFields followed by a getObject, and in general one getObject per
entry. -/
theorem queryTableEntries_two_calls_cex :
    (queryTableEntries oneFieldClient).calls =
      [RpcCall.getDynamicFields tableParentId,
       RpcCall.getObject taskFieldExample.objectId taskDetailsOptions] ∧
    (queryTableEntries oneFieldClient).calls.length ≠ 1 := by
  refine ⟨by decide, by decide⟩

/-- Claim C2 (amended): queryObject and queryDeTaskStore each build one
options object and issue exactly one RPC call; queryTableEntries issues
one getDynamicFields call and then one getObject call per returned field
with a truthy object id, in order; no function repeats a call on failure
(no retry), caches, or paginates. -/
theorem query_functions_call_traces (client : SuiClient) (objectId : String) :
    (queryObject client objectId).calls = [RpcCall.getObject objectId queryObjectOptions] ∧
    (queryDeTaskStore client).calls = [RpcCall.getObject deTaskStoreId deTaskStoreOptions] ∧
    (∀ page, client.getDynamicFields tableParentId = Except.ok page →
      (∀ f ∈ page.data, benignTask client f) →
      (queryTableEntries client).calls =
        RpcCall.getDynamicFields tableParentId ::
          (fieldsWithObjectId page.data).map
            (fun f => RpcCall.getObject f.objectId taskDetailsOptions)) := by
  refine ⟨queryObject_calls client objectId, queryDeTaskStore_calls client, ?_⟩
  intro page hp hb
  exact (queryTableEntries_benign client page hp hb).2

/-- Witness for the amended call-trace claim at the one-entry client. -/
theorem query_functions_call_traces_witness :
    (queryObject oneFieldClient exampleId1).calls =
      [RpcCall.getObject exampleId1 queryObjectOptions] ∧
    (queryTableEntries oneFieldClient).calls.length = 2 := by
  have h := query_functions_call_traces oneFieldClient exampleId1
  refine ⟨h.1, ?_⟩
  have h3 := h.2.2 { data := [taskFieldExample] } rfl ?_
  · rw [h3]; decide
  · intro f hf
    exact Or.inr ⟨okNoContentResult, rfl, rfl⟩

/-- The body of the BCS demo completes without throwing. -/
theorem demonstrateBCS_snd : demonstrateBCS.2 = none := by decide

/-- Claim C3: each demo script wraps its fallible logic in a catch that
logs the caught error's message — queryObject's catch additionally returns
null, the two table-query functions rethrow after logging, and the BCS
script's top-level catch logs the failure and ends the run normally. -/
theorem demo_scripts_catch_and_log (client : SuiClient) (objectId : String)
    (body : List BcsEvent × Option String) :
    (∀ e, client.getObject objectId queryObjectOptions = Except.error e →
      (queryObject client objectId).result = Except.ok none ∧
      LogEntry.err "❌ 查询对象失败:" e ∈ (queryObject client objectId).logs) ∧
    (∀ e, (queryDeTaskStore client).result = Except.error e →
      LogEntry.err "❌ 查询 DeTaskStore 失败:" e ∈ (queryDeTaskStore client).logs) ∧
    (∀ e, (queryTableEntries client).result = Except.error e →
      LogEntry.err "❌ 查询 Table 条目失败:" e ∈ (queryTableEntries client).logs) ∧
    (∀ e, body.2 = some e → tryCatchConsole body = body.1 ++ [BcsEvent.failed e]) ∧
    (body.2 = none → tryCatchConsole body = body.1) ∧
    bcsScriptMain = demonstrateBCS.1 := by
  refine ⟨?_, ?_, ?_, ?_, ?_, ?_⟩
  · intro e he
    constructor <;> simp [queryObject, he]
  · intro e he
    simp only [queryDeTaskStore] at he ⊢
    cases h : (queryDeTaskStoreBody client).result with
    | ok d => simp [h] at he
    | error e2 =>
      simp only [h] at he ⊢
      simp only [Except.error.injEq] at he
      subst he
      simp
  · intro e he
    simp only [queryTableEntries] at he ⊢
    cases h : (queryTableEntriesBody client).result with
    | ok d => simp [h] at he
    | error e2 =>
      simp only [h] at he ⊢
      simp only [Except.error.injEq] at he
      subst he
      simp
  · intro e he
    simp [tryCatchConsole, he]
  · intro he
    simp [tryCatchConsole, he]
  · simp [bcsScriptMain, tryCatchConsole, demonstrateBCS_snd]

/-- Witness for the catch-and-log claim: a throwing body reaches the BCS
catch and a throwing client reaches queryObject's catch. -/
theorem demo_scripts_catch_and_log_witness :
    tryCatchConsole ([], some "boom") = [] ++ [BcsEvent.failed "boom"] ∧
    (queryObject alwaysFailClient exampleId1).result = Except.ok none := by
  have h := demo_scripts_catch_and_log alwaysFailClient exampleId1 ([], some "boom")
  exact ⟨h.2.2.2.1 "boom" rfl, (h.1 "network down" rfl).1⟩

/-- A client that throws on the first example object and succeeds on every
other id. -/
def failFirstClient : SuiClient :=
  { getObject := fun objectId _ =>
      if objectId == exampleId1 then .error "network error" else .ok okNoContentResult,
    getDynamicFields := fun _ => .error "network error" }

/-- Counterexample to claim C4: when the first example query throws, the
error is caught and logged, yet the run issues the second query and prints
its per-item output afterwards — it does not stop. -/
theorem demonstrate_queries_continue_after_error_cex :
    (demonstrateObjectQueries failFirstClient).logs =
      [LogEntry.info "🚀 Sui 对象查询演示", LogEntry.info (sepLine 80),
       LogEntry.info "📌 查询示例: 智能合约包",
       LogEntry.info ("🔍 查询对象: " ++ exampleId1), LogEntry.info (sepLine 60),
       LogEntry.err "❌ 查询对象失败:" "network error", LogEntry.info (sepLine 80),
       LogEntry.info "📌 查询示例: 系统对象（时钟）",
       LogEntry.info ("🔍 查询对象: " ++ exampleId2), LogEntry.info (sepLine 60),
       LogEntry.info (sepLine 80)] ∧
    (demonstrateObjectQueries failFirstClient).calls =
      [RpcCall.getObject exampleId1 queryObjectOptions,
       RpcCall.getObject exampleId2 queryObjectOptions] := by
  refine ⟨by decide, by decide⟩

/-- Claim C4 (amended): a caught error only ends the current unit of work —
queryObject prints nothing after its error line and returns null, and a
throw in the table query rethrows with no further calls — but
demonstrateObjectQueries still issues the query for every remaining
example object in the same run. -/
theorem error_stops_current_unit_only (client : SuiClient) (objectId : String) :
    (∀ e, client.getObject objectId queryObjectOptions = Except.error e →
      (queryObject client objectId).result = Except.ok none ∧
      (queryObject client objectId).logs =
        [LogEntry.info ("🔍 查询对象: " ++ objectId), LogEntry.info (sepLine 60),
         LogEntry.err "❌ 查询对象失败:" e]) ∧
    (∀ e, client.getDynamicFields tableParentId = Except.error e →
      (queryTableEntries client).result = Except.error e ∧
      (queryTableEntries client).calls = [RpcCall.getDynamicFields tableParentId]) ∧
    (demonstrateObjectQueries client).calls.length = 2 := by
  refine ⟨?_, ?_, by rw [demoQueries_calls]; rfl⟩
  · intro e he
    constructor <;> simp [queryObject, he]
  · intro e he
    have hbody : (queryTableEntriesBody client).result = Except.error e ∧
        (queryTableEntriesBody client).calls = [RpcCall.getDynamicFields tableParentId] := by
      unfold queryTableEntriesBody
      simp [he]
    unfold queryTableEntries
    simp [hbody.1, hbody.2]

/-- Witness for the amended stop-behaviour claim at the client that fails
on the first example object. -/
theorem error_stops_current_unit_only_witness :
    (queryObject failFirstClient exampleId1).result = Except.ok none ∧
    (demonstrateObjectQueries failFirstClient).calls.length = 2 := by
  have h := error_stops_current_unit_only failFirstClient exampleId1
  exact ⟨(h.1 "network error" rfl).1, h.2.2⟩

/-- The catch of queryDeTaskStore does not change the result it rethrows. -/
theorem queryDeTaskStore_result_eq (client : SuiClient) :
    (queryDeTaskStore client).result = (queryDeTaskStoreBody client).result := by
  unfold queryDeTaskStore
  cases h : (queryDeTaskStoreBody client).result <;> simp [h]

/-- When the store fetch succeeds with no error field and a dereferencable
payload, queryDeTaskStore returns the response's data object. -/
theorem queryDeTaskStore_ok_of (client : SuiClient) (r : ObjectResult)
    (hr : client.getObject deTaskStoreId deTaskStoreOptions = Except.ok r)
    (hre : r.error = none) (hrd : storeDerefThrows r = false) :
    ∃ d, r.data = some d ∧ (queryDeTaskStore client).result = Except.ok d := by
  obtain ⟨rerr, rdata⟩ := r
  simp only at hre
  subst hre
  cases rdata with
  | none => simp [storeDerefThrows] at hrd
  | some d =>
    refine ⟨d, rfl, ?_⟩
    rw [queryDeTaskStore_result_eq]
    unfold queryDeTaskStoreBody
    rw [hr]
    obtain ⟨oid, ty, ow, cont⟩ := d
    cases cont with
    | none => rfl
    | some c =>
      simp only [storeDerefThrows] at hrd
      cases hfs : c.getField "fields" with
      | none => simp [hfs] at hrd
      | some fs =>
        simp only [hfs] at hrd
        cases htb : fs.getField "tbtask" with
        | none => simp [htb] at hrd
        | some tb =>
          simp only [htb] at hrd
          cases hvf : tb.getField "fields" with
          | none => simp [hvf] at hrd
          | some vf => simp [hfs, htb, hvf]

/-- The second dynamic field of the two-entry counterexample client. -/
def taskField2 : DynField :=
  { name := MoveValue.str "2", type := "DynamicField", objectId := "0xtask2" }

/-- A client whose table has two entries and whose object fetches all
succeed with content-free data. -/
def twoFieldsClient : SuiClient :=
  { getObject := fun _ _ => .ok okNoContentResult,
    getDynamicFields := fun _ => .ok { data := [taskFieldExample, taskField2] } }

/-- Counterexample to claim C6: with a two-entry table the table-query
demo run performs four awaited network calls, not two or three. -/
theorem table_demo_four_calls_cex :
    (tableDemoMain twoFieldsClient).calls.length = 4 ∧
    ¬((tableDemoMain twoFieldsClient).calls.length = 2 ∨
      (tableDemoMain twoFieldsClient).calls.length = 3) := by
  refine ⟨by decide, by decide⟩

/-- Claim C6 (amended): demonstrateObjectQueries always performs exactly
two awaited calls, one per example object, in program order; the
table-query demo performs the store fetch, the dynamic-field fetch, and
one fetch per returned field with a truthy object id — two plus the number
of such fields, which is three for the documented one-entry table — each
call completing before the next is issued. -/
theorem demo_call_counts (client : SuiClient) :
    (demonstrateObjectQueries client).calls =
      [RpcCall.getObject exampleId1 queryObjectOptions,
       RpcCall.getObject exampleId2 queryObjectOptions] ∧
    (∀ r page, client.getObject deTaskStoreId deTaskStoreOptions = Except.ok r →
      r.error = none → storeDerefThrows r = false →
      client.getDynamicFields tableParentId = Except.ok page →
      (∀ f ∈ page.data, benignTask client f) →
      (tableDemoMain client).calls =
        RpcCall.getObject deTaskStoreId deTaskStoreOptions ::
          RpcCall.getDynamicFields tableParentId ::
            (fieldsWithObjectId page.data).map
              (fun f => RpcCall.getObject f.objectId taskDetailsOptions) ∧
      (tableDemoMain client).calls.length = 2 + (fieldsWithObjectId page.data).length) := by
  refine ⟨demoQueries_calls client, ?_⟩
  intro r page hr hre hrd hp hb
  obtain ⟨d, hd, hok⟩ := queryDeTaskStore_ok_of client r hr hre hrd
  have ht := queryTableEntries_benign client page hp hb
  have hcalls : (tableDemoMain client).calls =
      RpcCall.getObject deTaskStoreId deTaskStoreOptions ::
        RpcCall.getDynamicFields tableParentId ::
          (fieldsWithObjectId page.data).map
            (fun f => RpcCall.getObject f.objectId taskDetailsOptions) := by
    unfold tableDemoMain
    simp [hok, queryDeTaskStore_calls, ht.2]
  refine ⟨hcalls, ?_⟩
  rw [hcalls]
  simp [List.length_map]
  omega

/-- Witness for the amended call-count claim: the one-entry client yields
three calls for the table demo and two for the object demo. -/
theorem demo_call_counts_witness :
    (tableDemoMain oneFieldClient).calls.length = 3 ∧
    (demonstrateObjectQueries oneFieldClient).calls.length = 2 := by
  have h := demo_call_counts oneFieldClient
  have h2 := h.2 okNoContentResult { data := [taskFieldExample] } rfl rfl rfl rfl
    (fun f hf => Or.inr ⟨okNoContentResult, rfl, rfl⟩)
  refine ⟨?_, by rw [h.1]; rfl⟩
  rw [h2.2]
  decide

/-- The body of queryDeTaskStore fails exactly when the store fetch throws,
or the response carries an error field, or the dereference chain on the
payload raises. -/
theorem queryDeTaskStoreBody_isOk_iff (client : SuiClient) :
    (queryDeTaskStoreBody client).result.isOk = false ↔
      (∃ e, client.getObject deTaskStoreId deTaskStoreOptions = Except.error e) ∨
      (∃ r, client.getObject deTaskStoreId deTaskStoreOptions = Except.ok r ∧
        (r.error.isSome = true ∨ storeDerefThrows r = true)) := by
  unfold queryDeTaskStoreBody
  cases hg : client.getObject deTaskStoreId deTaskStoreOptions with
  | error e => simp [hg, Except.isOk, Except.toBool]
  | ok r =>
    obtain ⟨rerr, rdata⟩ := r
    cases rerr with
    | some s => simp [hg, storeDerefThrows, Except.isOk, Except.toBool]
    | none =>
      cases rdata with
      | none => simp [hg, storeDerefThrows, Except.isOk, Except.toBool]
      | some d =>
        obtain ⟨oid, ty, ow, cont⟩ := d
        cases cont with
        | none => simp [hg, storeDerefThrows, Except.isOk, Except.toBool]
        | some c =>
          cases hfs : c.getField "fields" with
          | none => simp [hg, storeDerefThrows, hfs, Except.isOk, Except.toBool]
          | some fs =>
            cases htb : fs.getField "tbtask" with
            | none => simp [hg, storeDerefThrows, hfs, htb, Except.isOk, Except.toBool]
            | some tb =>
              cases hvf : tb.getField "fields" with
              | none => simp [hg, storeDerefThrows, hfs, htb, hvf, Except.isOk, Except.toBool]
              | some vf => simp [hg, storeDerefThrows, hfs, htb, hvf, Except.isOk, Except.toBool]

/-- When queryDeTaskStore resolves, the value it returns is the data
object of the store fetch's response. -/
theorem queryDeTaskStore_ok_data (client : SuiClient) :
    ∀ d, (queryDeTaskStore client).result = Except.ok d →
      ∃ r, client.getObject deTaskStoreId deTaskStoreOptions = Except.ok r ∧
        r.data = some d := by
  intro d hd
  have hiff := queryDeTaskStoreBody_isOk_iff client
  rw [← queryDeTaskStore_result_eq] at hiff
  have hOk : (queryDeTaskStore client).result.isOk = true := by rw [hd]; rfl
  cases hg : client.getObject deTaskStoreId deTaskStoreOptions with
  | error e =>
    have hbad := hiff.mpr (Or.inl ⟨e, hg⟩)
    rw [hOk] at hbad
    exact absurd hbad (by simp)
  | ok r =>
    cases hre : r.error with
    | some s =>
      have hbad := hiff.mpr (Or.inr ⟨r, hg, Or.inl (by simp [hre])⟩)
      rw [hOk] at hbad
      exact absurd hbad (by simp)
    | none =>
      cases hrd : storeDerefThrows r with
      | true =>
        have hbad := hiff.mpr (Or.inr ⟨r, hg, Or.inr hrd⟩)
        rw [hOk] at hbad
        exact absurd hbad (by simp)
      | false =>
        obtain ⟨d2, hd2, hok2⟩ := queryDeTaskStore_ok_of client r hg hre hrd
        rw [hd] at hok2
        have hdd : d = d2 := by simpa using hok2
        exact ⟨r, rfl, by rw [hd2, hdd]⟩

/-- Every rethrow from queryDeTaskStore is logged with its message. -/
theorem queryDeTaskStore_err_logged (client : SuiClient) :
    ∀ e, (queryDeTaskStore client).result = Except.error e →
      LogEntry.err "❌ 查询 DeTaskStore 失败:" e ∈ (queryDeTaskStore client).logs := by
  intro e he
  simp only [queryDeTaskStore] at he ⊢
  cases h : (queryDeTaskStoreBody client).result with
  | ok d => simp [h] at he
  | error e2 =>
    simp only [h] at he ⊢
    simp only [Except.error.injEq] at he
    subst he
    simp

/-- Claim C9 (amended): queryDeTaskStore raises exactly when the underlying
getObject call throws, or the response carries a non-null error field, or
the response payload is missing or lacks the members the function
dereferences; it never returns null — on success it returns the response's
data object — and on every error path it logs a failure message before
rethrowing. -/
theorem queryDeTaskStore_error_conditions (client : SuiClient) :
    ((queryDeTaskStore client).result.isOk = false ↔
      (∃ e, client.getObject deTaskStoreId deTaskStoreOptions = Except.error e) ∨
      (∃ r, client.getObject deTaskStoreId deTaskStoreOptions = Except.ok r ∧
        (r.error.isSome = true ∨ storeDerefThrows r = true))) ∧
    (∀ d, (queryDeTaskStore client).result = Except.ok d →
      ∃ r, client.getObject deTaskStoreId deTaskStoreOptions = Except.ok r ∧
        r.data = some d) ∧
    (∀ e, (queryDeTaskStore client).result = Except.error e →
      LogEntry.err "❌ 查询 DeTaskStore 失败:" e ∈ (queryDeTaskStore client).logs) := by
  refine ⟨?_, queryDeTaskStore_ok_data client, queryDeTaskStore_err_logged client⟩
  rw [queryDeTaskStore_result_eq]
  exact queryDeTaskStoreBody_isOk_iff client

/-- A client whose getObject resolves with an error field. -/
def errorFieldClient : SuiClient :=
  { getObject := fun _ _ => .ok { error := some "notExists", data := none },
    getDynamicFields := fun _ => .error "unused" }

/-- Witness for the amended error-condition claim: a response with an
error field makes queryDeTaskStore raise. -/
theorem queryDeTaskStore_error_conditions_witness :
    (queryDeTaskStore errorFieldClient).result.isOk = false := by
  have h := (queryDeTaskStore_error_conditions errorFieldClient).1
  exact h.mpr (Or.inr ⟨{ error := some "notExists", data := none }, rfl, Or.inl rfl⟩)

/-- A response with neither an error field nor a data object. -/
def emptyObjectResponse : ObjectResult := { error := none, data := none }

/-- A client whose getObject resolves with an empty response. -/
def noDataClient : SuiClient :=
  { getObject := fun _ _ => .ok emptyObjectResponse,
    getDynamicFields := fun _ => .error "unused" }

/-- Counterexample to claim C9: when the store fetch resolves with neither
an error field nor a data object, queryDeTaskStore still raises (a
TypeError from reading objectId of undefined), so raising is not
equivalent to a throw or a non-null error field alone. -/
theorem queryDeTaskStore_missing_data_cex :
    noDataClient.getObject deTaskStoreId deTaskStoreOptions = Except.ok emptyObjectResponse ∧
    emptyObjectResponse.error = none ∧
    (queryDeTaskStore noDataClient).result = Except.error (typeErrorMsg "objectId") := by
  exact ⟨rfl, rfl, rfl⟩
